import Mathlib

/-!
Shallow embedding of the FastAPI + MongoDB items service
(`src/backend/src/api/models.py`, `src/backend/src/api/routes/items.py`,
`src/backend/src/api/db.py`).

The MongoDB `items` collection is modelled as a `List Doc`; each handler is a
pure function from its request data and the current collection to an HTTP-level
response together with the new collection.  ObjectIds are modelled as their
24-hex-character string encoding; timestamps as natural numbers.
-/

namespace ItemsApi

/-! ### models.py -/

/-- A hexadecimal digit, as accepted by `bson.ObjectId` for 24-character
string input. -/
def isHexChar (c : Char) : Bool :=
  c.isDigit || (Char.ofNat 97 ≤ c && c ≤ Char.ofNat 102) ||
    (Char.ofNat 65 ≤ c && c ≤ Char.ofNat 70)

/-- `bson.ObjectId(value)` succeeds on a string exactly when it is a
24-character hexadecimal string. -/
def isValidObjectId (s : String) : Bool :=
  s.data.length == 24 && s.data.all isHexChar

/-- `object_id_from_str` (models.py): parse an ObjectId from a string or fail
(`ValueError`) for invalid input.  The parsed ObjectId is modelled by its
string encoding itself. -/
def object_id_from_str (value : String) : Option String :=
  if isValidObjectId value then some value else none

/-- `ItemCreate` (models.py): payload for creating an item; `name` is a
required string with `min_length=1`, `description` optional/nullable. -/
structure ItemCreate where
  name : String
  description : Option String
deriving Repr, DecidableEq

/-- The pydantic schema constraint on `ItemCreate`: `name` has `min_length=1`.
A payload violating it is rejected with 422 before the handler runs. -/
def ItemCreate.schemaValid (p : ItemCreate) : Bool :=
  1 ≤ p.name.data.length

/-- `ItemUpdate` (models.py): payload for updating an item.  Both fields are
`Optional` with default `None` and carry NO length constraint. -/
structure ItemUpdate where
  name : Option String
  description : Option String
deriving Repr, DecidableEq

/-- A stored MongoDB document of the `items` collection: `_id`, `name`,
`description` (nullable) and `created_at`. -/
structure Doc where
  id : String
  name : String
  description : Option String
  created_at : Nat
deriving Repr, DecidableEq

/-- `ItemOut` (models.py): response model, with the ObjectId stringified. -/
structure ItemOut where
  id : String
  name : String
  description : Option String
  created_at : Nat
deriving Repr, DecidableEq

/-! ### HTTP-level outcomes -/

/-- Outcome of a handler: a 2xx response carrying an item, a bodyless 204, or
an `HTTPException` with a status code (404, 422). -/
inductive HResp where
  | ok (status : Nat) (item : ItemOut)
  | noContent
  | err (status : Nat)
deriving Repr, DecidableEq

/-! ### routes/items.py -/

/-- `_item_doc_to_out` (items.py): convert a stored document to `ItemOut`. -/
def item_doc_to_out (doc : Doc) : ItemOut :=
  { id := doc.id, name := doc.name, description := doc.description,
    created_at := doc.created_at }

/-- `find_one({"_id": oid})`: the document with the given id (first match). -/
def find_one (oid : String) (store : List Doc) : Option Doc :=
  store.find? (fun d => d.id == oid)

/-- `find_one_and_update({"_id": oid}, {"$set": ...}, return_document=True)`:
update the first document matching `oid` by `f`, returning the updated
document and the new collection. -/
def find_one_and_update (oid : String) (f : Doc → Doc) :
    List Doc → Option Doc × List Doc
  | [] => (none, [])
  | d :: ds =>
    if d.id == oid then (some (f d), f d :: ds)
    else
      let r := find_one_and_update oid f ds
      (r.1, d :: r.2)

/-- `delete_one({"_id": oid})`: remove the first document matching `oid`,
returning the deleted count (0 or 1) and the new collection. -/
def delete_one (oid : String) : List Doc → Nat × List Doc
  | [] => (0, [])
  | d :: ds =>
    if d.id == oid then (1, ds)
    else
      let r := delete_one oid ds
      (r.1, d :: r.2)

/-- The `$set` document built by `update_item`: `name` is included exactly
when `payload.name is not None`, likewise `description`; applying it to a
stored document overwrites exactly the included fields. -/
def applySet (nameU descU : Option String) (d : Doc) : Doc :=
  { d with
      name := nameU.getD d.name
      description := match descU with
        | some v => some v
        | none => d.description }

/-- `create_item` (items.py): validate the payload against the `ItemCreate`
schema (FastAPI returns 422 on violation), then insert a document with a
fresh server-side timestamp `now` and the store-assigned id `newId`, and
return 201 with the full item. -/
def create_item (payload : ItemCreate) (newId : String) (now : Nat)
    (store : List Doc) : HResp × List Doc :=
  if payload.schemaValid then
    let doc : Doc :=
      { id := newId, name := payload.name, description := payload.description,
        created_at := now }
    (.ok 201 (item_doc_to_out doc), store ++ [doc])
  else
    (.err 422, store)

/-- The sort order used by `list_items`: `created_at` descending. -/
def createdDesc (a b : Doc) : Prop :=
  b.created_at ≤ a.created_at

instance : DecidableRel createdDesc := fun a b =>
  inferInstanceAs (Decidable (b.created_at ≤ a.created_at))

instance : IsTotal Doc createdDesc :=
  ⟨fun a b => le_total b.created_at a.created_at⟩

instance : IsTrans Doc createdDesc :=
  ⟨fun _ _ _ h1 h2 => le_trans h2 h1⟩

/-- `list_items` (items.py): `find({}).sort("created_at", -1)` then
`to_list(length=1000)` — all documents ordered by `created_at` descending,
truncated to at most 1000, with status 200. -/
def list_items (store : List Doc) : Nat × List ItemOut :=
  (200, ((List.insertionSort createdDesc store).take 1000).map item_doc_to_out)

/-- `get_item` (items.py): parse the id (422 on failure), fetch the document
(404 when missing), else 200 with the item. -/
def get_item (id : String) (store : List Doc) : HResp :=
  match object_id_from_str id with
  | none => .err 422
  | some oid =>
    match find_one oid store with
    | none => .err 404
    | some doc => .ok 200 (item_doc_to_out doc)

/-- `update_item` (items.py): parse the id (422 on failure); build the `$set`
document from the fields of the payload that are not `None`; when it is empty,
fetch and return the current document (404 when missing) leaving the store
unchanged; otherwise `find_one_and_update` and return the updated document
(404 when no document matched). -/
def update_item (payload : ItemUpdate) (id : String) (store : List Doc) :
    HResp × List Doc :=
  match object_id_from_str id with
  | none => (.err 422, store)
  | some oid =>
    if payload.name = none ∧ payload.description = none then
      match find_one oid store with
      | none => (.err 404, store)
      | some doc => (.ok 200 (item_doc_to_out doc), store)
    else
      let r := find_one_and_update oid (applySet payload.name payload.description) store
      match r.1 with
      | none => (.err 404, r.2)
      | some doc => (.ok 200 (item_doc_to_out doc), r.2)

/-- `delete_item` (items.py): parse the id (422 on failure), `delete_one`;
404 when the deleted count is 0, else 204 with no body. -/
def delete_item (id : String) (store : List Doc) : HResp × List Doc :=
  match object_id_from_str id with
  | none => (.err 422, store)
  | some oid =>
    let r := delete_one oid store
    if r.1 == 0 then (.err 404, store)
    else (.noContent, r.2)

/-! ### db.py -/

/-- `MongoDB` (db.py): holder of the client/database singletons; each is
`None` until `init` runs.  The driver handles are modelled by the connection
string and the pair (connection string, database name). -/
structure MongoDB where
  client? : Option String
  db? : Option (String × String)
deriving Repr, DecidableEq

/-- `MongoDB.__init__`: both handles start out as `None`. -/
def MongoDB.initial : MongoDB :=
  { client? := none, db? := none }

/-- The `client` property: the initialized client, or a `RuntimeError` when
uninitialized. -/
def MongoDB.client (m : MongoDB) : Except String String :=
  match m.client? with
  | none => .error "MongoDB client is not initialized. Did startup run?"
  | some c => .ok c

/-- The `db` property: the initialized database, or a `RuntimeError` when
uninitialized. -/
def MongoDB.db (m : MongoDB) : Except String (String × String) :=
  match m.db? with
  | none => .error "MongoDB database is not initialized. Did startup run?"
  | some d => .ok d

/-- `MongoDB.init`: read `MONGODB_URI` and `MONGODB_DB_NAME` from the
environment (with defaults) and set both handles. -/
def MongoDB.init (env_uri env_db_name : Option String) (_m : MongoDB) :
    MongoDB :=
  let mongodb_uri := env_uri.getD "mongodb://localhost:27017"
  let db_name := env_db_name.getD "app"
  { client? := some mongodb_uri, db? := some (mongodb_uri, db_name) }

/-- `MongoDB.close`: close the client if present, then clear both handles
unconditionally. -/
def MongoDB.close (_m : MongoDB) : MongoDB :=
  { client? := none, db? := none }

end ItemsApi

namespace ItemsApi

/-! ### Helper lemmas about the modelled collection operations -/

theorem find_one_nil (oid : String) : find_one oid [] = none := rfl

theorem find_one_cons (oid : String) (d : Doc) (ds : List Doc) :
    find_one oid (d :: ds) =
      if d.id == oid then some d else find_one oid ds := by
  simp only [find_one, List.find?]
  cases h : (d.id == oid) <;> simp [h]

theorem find_one_eq_none_iff (oid : String) (l : List Doc) :
    find_one oid l = none ↔ ∀ d ∈ l, d.id ≠ oid := by
  simp [find_one, List.find?_eq_none]

theorem fst_find_one_and_update (oid : String) (f : Doc → Doc) :
    ∀ l : List Doc, (find_one_and_update oid f l).1 = (find_one oid l).map f
  | [] => rfl
  | d :: ds => by
    rw [find_one_cons]
    cases h : (d.id == oid) <;>
      simp [find_one_and_update, h, fst_find_one_and_update oid f ds]

theorem snd_find_one_and_update_of_none (oid : String) (f : Doc → Doc) :
    ∀ l : List Doc, find_one oid l = none → (find_one_and_update oid f l).2 = l
  | [], _ => rfl
  | d :: ds, h => by
    rw [find_one_cons] at h
    cases hd : (d.id == oid) with
    | true => simp [hd] at h
    | false =>
      simp only [hd] at h
      simp [find_one_and_update, hd, snd_find_one_and_update_of_none oid f ds h]

theorem snd_find_one_and_update_nodup (oid : String) (f : Doc → Doc) :
    ∀ l : List Doc, (l.map Doc.id).Nodup →
      (find_one_and_update oid f l).2 =
        l.map (fun d => if d.id = oid then f d else d)
  | [], _ => rfl
  | d :: ds, h => by
    rw [List.map_cons, List.nodup_cons] at h
    cases hd : (d.id == oid) with
    | true =>
      have hde : d.id = oid := by simpa using hd
      have hrest : ∀ e ∈ ds, ¬ e.id = oid := by
        intro e he hecon
        exact h.1 (by rw [hde, ← hecon]; exact List.mem_map_of_mem Doc.id he)
      have hmap : List.map (fun e => if e.id = oid then f e else e) ds = ds := by
        rw [List.map_congr_left (fun e he => if_neg (hrest e he))]
        simp
      simp [find_one_and_update, hd, if_pos hde, hmap]
    | false =>
      have hde : ¬ d.id = oid := by simpa using hd
      simp [find_one_and_update, hd, if_neg hde,
        snd_find_one_and_update_nodup oid f ds h.2]

theorem mem_snd_find_one_and_update (oid : String) (f : Doc → Doc) :
    ∀ l : List Doc, ∀ e ∈ (find_one_and_update oid f l).2,
      e ∈ l ∨ ∃ d ∈ l, e = f d
  | [], e, he => absurd he (List.not_mem_nil e)
  | d :: ds, e, he => by
    by_cases hd : (d.id == oid) = true
    · rw [show find_one_and_update oid f (d :: ds) = (some (f d), f d :: ds) from by
        simp [find_one_and_update, hd]] at he
      rcases List.mem_cons.mp he with he | he
      · exact Or.inr ⟨d, List.mem_cons_self d ds, he⟩
      · exact Or.inl (List.mem_cons_of_mem d he)
    · rw [show find_one_and_update oid f (d :: ds)
          = ((find_one_and_update oid f ds).1,
             d :: (find_one_and_update oid f ds).2) from by
        simp [find_one_and_update, hd]] at he
      rcases List.mem_cons.mp he with he | he
      · exact Or.inl (he ▸ List.mem_cons_self d ds)
      · rcases mem_snd_find_one_and_update oid f ds e he with h1 | ⟨d2, hd2, he2⟩
        · exact Or.inl (List.mem_cons_of_mem d h1)
        · exact Or.inr ⟨d2, List.mem_cons_of_mem d hd2, he2⟩

theorem delete_one_of_none (oid : String) :
    ∀ l : List Doc, find_one oid l = none → delete_one oid l = (0, l)
  | [], _ => rfl
  | d :: ds, h => by
    rw [find_one_cons] at h
    cases hd : (d.id == oid) with
    | true => simp [hd] at h
    | false =>
      simp only [hd] at h
      simp [delete_one, hd, delete_one_of_none oid ds h]

theorem delete_one_of_found (oid : String) :
    ∀ l : List Doc, find_one oid l ≠ none →
      (delete_one oid l).1 = 1 ∧ (delete_one oid l).2.length + 1 = l.length
  | [], h => absurd rfl h
  | d :: ds, h => by
    rw [find_one_cons] at h
    cases hd : (d.id == oid) with
    | true => simp [delete_one, hd]
    | false =>
      simp only [hd, if_neg, Bool.false_eq_true, reduceIte] at h
      have := delete_one_of_found oid ds h
      simp [delete_one, hd, this.1, ← this.2]

theorem find_one_delete_one_nodup (oid : String) :
    ∀ l : List Doc, (l.map Doc.id).Nodup →
      find_one oid (delete_one oid l).2 = none
  | [], _ => rfl
  | d :: ds, h => by
    rw [List.map_cons, List.nodup_cons] at h
    cases hd : (d.id == oid) with
    | true =>
      have hde : d.id = oid := by simpa using hd
      simp only [delete_one, hd]
      rw [find_one_eq_none_iff]
      intro e he hecon
      exact h.1 (by rw [hde, ← hecon]; exact List.mem_map_of_mem Doc.id he)
    | false =>
      simp only [delete_one, hd, Bool.false_eq_true, reduceIte]
      rw [find_one_cons, hd]
      simp [find_one_delete_one_nodup oid ds h.2]

theorem find_one_append_of_none (oid : String) :
    ∀ l₁ l₂ : List Doc, find_one oid l₁ = none →
      find_one oid (l₁ ++ l₂) = find_one oid l₂
  | [], l₂, _ => by simp
  | d :: ds, l₂, h => by
    rw [find_one_cons] at h
    cases hd : (d.id == oid) with
    | true => simp [hd] at h
    | false =>
      simp only [hd] at h
      rw [List.cons_append, find_one_cons, hd]
      simp [find_one_append_of_none oid ds l₂ h]

end ItemsApi

namespace ItemsApi

/-! ### Shared facts about `update_item` -/

theorem object_id_from_str_of_valid (id : String) (h : isValidObjectId id = true) :
    object_id_from_str id = some id := by
  simp [object_id_from_str, h]

theorem update_item_noop_eq (id : String) (store : List Doc)
    (h : isValidObjectId id = true) :
    update_item ⟨none, none⟩ id store =
      ((match find_one id store with
        | none => HResp.err 404
        | some doc => HResp.ok 200 (item_doc_to_out doc)), store) := by
  have ho := object_id_from_str_of_valid id h
  cases hf : find_one id store <;> simp [update_item, ho, hf]

end ItemsApi

namespace ItemsApi

/-- C1: the spec invariant "every stored item has a non-empty `name`" is the
documented intent (ItemBase enforces `min_length=1` on create), but
`ItemUpdate.name` carries no length constraint, so `update_item` with the
payload `{"name": ""}` stores an empty name: Create with an empty name is
rejected with 422, while Update on the same store turns the stored name `"a"`
into `""`. -/
theorem update_breaks_nonempty_name_invariant :
    create_item ⟨"", none⟩ "0123456789abcdef01234567" 0 [] = (.err 422, []) ∧
    update_item ⟨some "", none⟩ "0123456789abcdef01234567"
        [⟨"0123456789abcdef01234567", "a", none, 0⟩]
      = (.ok 200 ⟨"0123456789abcdef01234567", "", none, 0⟩,
         [⟨"0123456789abcdef01234567", "", none, 0⟩]) :=
  ⟨by decide, by decide⟩

/-- C2: for every id string that is not a valid 24-hex ObjectId encoding,
`get_item`, `update_item` and `delete_item` all return 422 and leave the
store unchanged (the id is parsed before any database operation). -/
theorem invalid_id_rejected_422 (id : String) (store : List Doc)
    (p : ItemUpdate) (h : isValidObjectId id = false) :
    get_item id store = .err 422 ∧
    update_item p id store = (.err 422, store) ∧
    delete_item id store = (.err 422, store) := by
  have ho : object_id_from_str id = none := by simp [object_id_from_str, h]
  exact ⟨by simp [get_item, ho], by simp [update_item, ho],
    by simp [delete_item, ho]⟩

theorem invalid_id_rejected_422_witness :
    isValidObjectId "not-an-id" = false ∧
    (get_item "not-an-id" [⟨"0123456789abcdef01234567", "a", none, 0⟩] = .err 422 ∧
     update_item ⟨some "b", none⟩ "not-an-id"
        [⟨"0123456789abcdef01234567", "a", none, 0⟩]
       = (.err 422, [⟨"0123456789abcdef01234567", "a", none, 0⟩]) ∧
     delete_item "not-an-id" [⟨"0123456789abcdef01234567", "a", none, 0⟩]
       = (.err 422, [⟨"0123456789abcdef01234567", "a", none, 0⟩])) :=
  ⟨by decide,
   invalid_id_rejected_422 "not-an-id" [⟨"0123456789abcdef01234567", "a", none, 0⟩]
     ⟨some "b", none⟩ (by decide)⟩

/-- C5: for every valid id, `update_item` with a payload with no fields set
leaves the store unchanged and returns 200 with the current document when the
id exists and 404 when it does not. -/
theorem empty_update_is_noop_probe (id : String) (store : List Doc)
    (h : isValidObjectId id = true) :
    update_item ⟨none, none⟩ id store =
      ((match find_one id store with
        | none => HResp.err 404
        | some doc => HResp.ok 200 (item_doc_to_out doc)), store) :=
  update_item_noop_eq id store h

theorem empty_update_is_noop_probe_witness :
    isValidObjectId "0123456789abcdef01234567" = true ∧
    update_item ⟨none, none⟩ "0123456789abcdef01234567"
        [⟨"0123456789abcdef01234567", "a", some "x", 5⟩] =
      ((match find_one "0123456789abcdef01234567"
            [⟨"0123456789abcdef01234567", "a", some "x", 5⟩] with
        | none => HResp.err 404
        | some doc => HResp.ok 200 (item_doc_to_out doc)),
       [⟨"0123456789abcdef01234567", "a", some "x", 5⟩]) :=
  ⟨by decide,
   empty_update_is_noop_probe "0123456789abcdef01234567"
     [⟨"0123456789abcdef01234567", "a", some "x", 5⟩] (by decide)⟩

/-- C8: accessing the holder's `client` or `db` before `init` has run (the
freshly constructed holder) or after `close` has run fails with the
"not initialized" `RuntimeError` rather than returning a stale handle. -/
theorem uninitialized_access_fails (m : MongoDB) :
    MongoDB.initial.client =
      .error "MongoDB client is not initialized. Did startup run?" ∧
    MongoDB.initial.db =
      .error "MongoDB database is not initialized. Did startup run?" ∧
    m.close.client =
      .error "MongoDB client is not initialized. Did startup run?" ∧
    m.close.db =
      .error "MongoDB database is not initialized. Did startup run?" :=
  ⟨rfl, rfl, rfl, rfl⟩

/-- C10: `close` is idempotent and total on the holder: it succeeds on the
uninitialized holder, clears both handles, and closing twice equals closing
once. -/
theorem close_idempotent_total (m : MongoDB) :
    m.close.close = m.close ∧
    MongoDB.initial.close = MongoDB.initial ∧
    m.close.client? = none ∧
    m.close.db? = none :=
  ⟨rfl, rfl, rfl, rfl⟩

end ItemsApi

namespace ItemsApi

theorem update_item_snd_of_nonempty (p : ItemUpdate) (id : String)
    (store : List Doc) (hid : isValidObjectId id = true)
    (hc : ¬(p.name = none ∧ p.description = none)) :
    (update_item p id store).2 =
      (find_one_and_update id (applySet p.name p.description) store).2 := by
  have ho := object_id_from_str_of_valid id hid
  simp only [update_item, ho]
  rw [if_neg hc]
  cases hr : (find_one_and_update id (applySet p.name p.description) store).1 <;>
    simp [hr]

/-- C3: for every existing store, `update_item` with a valid id rewrites the
collection pointwise — only the document whose id matches is touched, and it
is touched by `applySet`, which never changes `id` or `created_at` and leaves
`name` (resp. `description`) unchanged when the payload does not provide
it. -/
theorem update_touches_only_provided_fields (p : ItemUpdate) (id : String)
    (store : List Doc) (d : Doc) (hid : isValidObjectId id = true)
    (hnd : (store.map Doc.id).Nodup) :
    (update_item p id store).2 =
      store.map (fun e => if e.id = id then applySet p.name p.description e else e) ∧
    (applySet p.name p.description d).id = d.id ∧
    (applySet p.name p.description d).created_at = d.created_at ∧
    (p.name = none → (applySet p.name p.description d).name = d.name) ∧
    (p.description = none →
      (applySet p.name p.description d).description = d.description) := by
  refine ⟨?_, rfl, rfl, fun h1 => by simp [applySet, h1],
    fun h2 => by simp [applySet, h2]⟩
  by_cases hc : p.name = none ∧ p.description = none
  · obtain ⟨h1, h2⟩ := hc
    have hsnd : (update_item p id store).2 = store := by
      obtain ⟨pn, pd⟩ := p
      simp only at h1 h2
      subst h1; subst h2
      exact congrArg Prod.snd (update_item_noop_eq id store hid)
    have hmap : store.map
        (fun e => if e.id = id then applySet p.name p.description e else e)
          = store := by
      rw [List.map_congr_left (fun e _ => by
        rw [h1, h2, show applySet none none e = e from rfl, ite_self])]
      simp
    rw [hsnd, hmap]
  · rw [update_item_snd_of_nonempty p id store hid hc,
      snd_find_one_and_update_nodup id _ store hnd]

theorem update_touches_only_provided_fields_witness :
    isValidObjectId "0123456789abcdef01234567" = true ∧
    (([⟨"0123456789abcdef01234567", "a", some "x", 3⟩] :
        List Doc).map Doc.id).Nodup ∧
    ((update_item ⟨some "b", none⟩ "0123456789abcdef01234567"
        [⟨"0123456789abcdef01234567", "a", some "x", 3⟩]).2 =
      ([⟨"0123456789abcdef01234567", "a", some "x", 3⟩] : List Doc).map
        (fun e => if e.id = "0123456789abcdef01234567"
          then applySet (some "b") none e else e) ∧
     (applySet (some "b") none
        ⟨"0123456789abcdef01234567", "a", some "x", 3⟩).id =
       (⟨"0123456789abcdef01234567", "a", some "x", 3⟩ : Doc).id ∧
     (applySet (some "b") none
        ⟨"0123456789abcdef01234567", "a", some "x", 3⟩).created_at =
       (⟨"0123456789abcdef01234567", "a", some "x", 3⟩ : Doc).created_at ∧
     ((some "b" : Option String) = none →
       (applySet (some "b") none
          ⟨"0123456789abcdef01234567", "a", some "x", 3⟩).name =
         (⟨"0123456789abcdef01234567", "a", some "x", 3⟩ : Doc).name) ∧
     ((none : Option String) = none →
       (applySet (some "b") none
          ⟨"0123456789abcdef01234567", "a", some "x", 3⟩).description =
         (⟨"0123456789abcdef01234567", "a", some "x", 3⟩ : Doc).description)) :=
  ⟨by decide, by decide,
   update_touches_only_provided_fields ⟨some "b", none⟩
     "0123456789abcdef01234567"
     [⟨"0123456789abcdef01234567", "a", some "x", 3⟩]
     ⟨"0123456789abcdef01234567", "a", some "x", 3⟩ (by decide) (by decide)⟩

/-- C4: creating a valid payload with a fresh store-assigned id and then
fetching that id returns an item with the same `name` and `description` and
with `created_at` equal to the timestamp assigned during create. -/
theorem create_then_get_roundtrip (p : ItemCreate) (newId : String) (now : Nat)
    (store : List Doc) (hp : p.schemaValid = true)
    (hid : isValidObjectId newId = true)
    (hfresh : find_one newId store = none) :
    create_item p newId now store =
      (.ok 201 ⟨newId, p.name, p.description, now⟩,
       store ++ [⟨newId, p.name, p.description, now⟩]) ∧
    get_item newId (create_item p newId now store).2 =
      .ok 200 ⟨newId, p.name, p.description, now⟩ := by
  have hcreate : create_item p newId now store =
      (.ok 201 ⟨newId, p.name, p.description, now⟩,
       store ++ [⟨newId, p.name, p.description, now⟩]) := by
    simp [create_item, hp, item_doc_to_out]
  refine ⟨hcreate, ?_⟩
  rw [hcreate]
  have ho := object_id_from_str_of_valid newId hid
  have hfind : find_one newId (store ++ [⟨newId, p.name, p.description, now⟩])
      = some ⟨newId, p.name, p.description, now⟩ := by
    rw [find_one_append_of_none newId store _ hfresh, find_one_cons]
    simp
  simp [get_item, ho, hfind, item_doc_to_out]

theorem create_then_get_roundtrip_witness :
    (⟨"a", some "x"⟩ : ItemCreate).schemaValid = true ∧
    isValidObjectId "0123456789abcdef01234567" = true ∧
    find_one "0123456789abcdef01234567" [] = none ∧
    (create_item ⟨"a", some "x"⟩ "0123456789abcdef01234567" 7 [] =
      (.ok 201 ⟨"0123456789abcdef01234567", "a", some "x", 7⟩,
       [] ++ [⟨"0123456789abcdef01234567", "a", some "x", 7⟩]) ∧
     get_item "0123456789abcdef01234567"
        (create_item ⟨"a", some "x"⟩ "0123456789abcdef01234567" 7 []).2 =
      .ok 200 ⟨"0123456789abcdef01234567", "a", some "x", 7⟩) :=
  ⟨by decide, by decide, by decide,
   create_then_get_roundtrip ⟨"a", some "x"⟩ "0123456789abcdef01234567" 7 []
     (by decide) (by decide) (by decide)⟩

end ItemsApi

namespace ItemsApi

theorem applySet_description_isSome (n u : Option String) (d : Doc)
    (h : d.description.isSome = true) :
    (applySet n u d).description.isSome = true := by
  cases u <;> simp [applySet, h]

/-- C7: deleting an existing item returns 204 with no body, removes exactly
that item, and every subsequent Get, Update or Delete on the same id returns
404 (leaving the store unchanged). -/
theorem delete_then_all_404 (id : String) (store : List Doc) (p : ItemUpdate)
    (d : Doc) (hid : isValidObjectId id = true)
    (hnd : (store.map Doc.id).Nodup) (hmem : d ∈ store) (hd : d.id = id) :
    (delete_item id store).1 = .noContent ∧
    (delete_item id store).2.length + 1 = store.length ∧
    find_one id (delete_item id store).2 = none ∧
    get_item id (delete_item id store).2 = .err 404 ∧
    update_item p id (delete_item id store).2 =
      (.err 404, (delete_item id store).2) ∧
    delete_item id (delete_item id store).2 =
      (.err 404, (delete_item id store).2) := by
  have ho := object_id_from_str_of_valid id hid
  have hfound : find_one id store ≠ none := by
    intro hn
    rw [find_one_eq_none_iff] at hn
    exact hn d hmem hd
  have hdel := delete_one_of_found id store hfound
  have hdelitem : delete_item id store = (.noContent, (delete_one id store).2) := by
    simp [delete_item, ho, hdel.1]
  have hnone : find_one id (delete_one id store).2 = none :=
    find_one_delete_one_nodup id store hnd
  refine ⟨by rw [hdelitem], ?_, ?_, ?_, ?_, ?_⟩
  · rw [hdelitem]; exact hdel.2
  · rw [hdelitem]; exact hnone
  · rw [hdelitem]; simp [get_item, ho, hnone]
  · rw [hdelitem]
    by_cases hc : p.name = none ∧ p.description = none
    · obtain ⟨pn, pd⟩ := p
      obtain ⟨h1, h2⟩ := hc
      simp only at h1 h2
      subst h1; subst h2
      rw [update_item_noop_eq id (delete_one id store).2 hid, hnone]
    · have hfst : (find_one_and_update id (applySet p.name p.description)
          (delete_one id store).2).1 = none := by
        rw [fst_find_one_and_update, hnone]
        rfl
      have hsnd := snd_find_one_and_update_of_none id
        (applySet p.name p.description) (delete_one id store).2 hnone
      simp [update_item, ho, if_neg hc, hfst, hsnd]
  · rw [hdelitem]
    have h0 : delete_one id (delete_one id store).2 = (0, (delete_one id store).2) :=
      delete_one_of_none id (delete_one id store).2 hnone
    simp [delete_item, ho, h0]

theorem delete_then_all_404_witness :
    isValidObjectId "0123456789abcdef01234567" = true ∧
    (([⟨"0123456789abcdef01234567", "a", none, 0⟩] : List Doc).map Doc.id).Nodup ∧
    (⟨"0123456789abcdef01234567", "a", none, 0⟩ : Doc) ∈
      ([⟨"0123456789abcdef01234567", "a", none, 0⟩] : List Doc) ∧
    (⟨"0123456789abcdef01234567", "a", none, 0⟩ : Doc).id =
      "0123456789abcdef01234567" ∧
    ((delete_item "0123456789abcdef01234567"
        [⟨"0123456789abcdef01234567", "a", none, 0⟩]).1 = .noContent ∧
     (delete_item "0123456789abcdef01234567"
        [⟨"0123456789abcdef01234567", "a", none, 0⟩]).2.length + 1 =
       ([⟨"0123456789abcdef01234567", "a", none, 0⟩] : List Doc).length ∧
     find_one "0123456789abcdef01234567"
        (delete_item "0123456789abcdef01234567"
          [⟨"0123456789abcdef01234567", "a", none, 0⟩]).2 = none ∧
     get_item "0123456789abcdef01234567"
        (delete_item "0123456789abcdef01234567"
          [⟨"0123456789abcdef01234567", "a", none, 0⟩]).2 = .err 404 ∧
     update_item ⟨some "b", some "c"⟩ "0123456789abcdef01234567"
        (delete_item "0123456789abcdef01234567"
          [⟨"0123456789abcdef01234567", "a", none, 0⟩]).2 =
       (.err 404, (delete_item "0123456789abcdef01234567"
          [⟨"0123456789abcdef01234567", "a", none, 0⟩]).2) ∧
     delete_item "0123456789abcdef01234567"
        (delete_item "0123456789abcdef01234567"
          [⟨"0123456789abcdef01234567", "a", none, 0⟩]).2 =
       (.err 404, (delete_item "0123456789abcdef01234567"
          [⟨"0123456789abcdef01234567", "a", none, 0⟩]).2)) :=
  ⟨by decide, by decide, by decide, by decide,
   delete_then_all_404 "0123456789abcdef01234567"
     [⟨"0123456789abcdef01234567", "a", none, 0⟩] ⟨some "b", some "c"⟩
     ⟨"0123456789abcdef01234567", "a", none, 0⟩
     (by decide) (by decide) (by decide) (by decide)⟩

/-- C9: `update_item` treats a field given as null exactly like an absent
field: a payload of only nulls is the empty no-op probe, `applySet` with a
null `name` (resp. `description`) leaves that field unchanged, and a store
whose documents all have a non-null `description` still has only non-null
descriptions after any update — a `description` can never be reset to null. -/
theorem null_update_fields_ignored (p : ItemUpdate) (id : String)
    (store : List Doc) (d : Doc) (hid : isValidObjectId id = true)
    (hall : store.all (fun e => e.description.isSome) = true) :
    update_item ⟨none, none⟩ id store =
      ((match find_one id store with
        | none => HResp.err 404
        | some doc => HResp.ok 200 (item_doc_to_out doc)), store) ∧
    (applySet none p.description d).name = d.name ∧
    (applySet p.name none d).description = d.description ∧
    (update_item p id store).2.all (fun e => e.description.isSome) = true := by
  refine ⟨update_item_noop_eq id store hid, rfl, rfl, ?_⟩
  rw [List.all_eq_true] at hall ⊢
  intro e he
  by_cases hc : p.name = none ∧ p.description = none
  · obtain ⟨pn, pd⟩ := p
    obtain ⟨h1, h2⟩ := hc
    simp only at h1 h2
    subst h1; subst h2
    have hsnd : (update_item ⟨none, none⟩ id store).2 = store :=
      congrArg Prod.snd (update_item_noop_eq id store hid)
    rw [hsnd] at he
    exact hall e he
  · rw [update_item_snd_of_nonempty p id store hid hc] at he
    rcases mem_snd_find_one_and_update id (applySet p.name p.description)
        store e he with h1 | ⟨d2, hd2, he2⟩
    · exact hall e h1
    · rw [he2]
      exact applySet_description_isSome p.name p.description d2 (hall d2 hd2)

theorem null_update_fields_ignored_witness :
    isValidObjectId "0123456789abcdef01234567" = true ∧
    ([⟨"0123456789abcdef01234567", "a", some "x", 0⟩] : List Doc).all
      (fun e => e.description.isSome) = true ∧
    (update_item ⟨none, none⟩ "0123456789abcdef01234567"
        [⟨"0123456789abcdef01234567", "a", some "x", 0⟩] =
      ((match find_one "0123456789abcdef01234567"
            [⟨"0123456789abcdef01234567", "a", some "x", 0⟩] with
        | none => HResp.err 404
        | some doc => HResp.ok 200 (item_doc_to_out doc)),
       [⟨"0123456789abcdef01234567", "a", some "x", 0⟩]) ∧
     (applySet none (some "c")
        ⟨"0123456789abcdef01234567", "a", some "x", 0⟩).name =
       (⟨"0123456789abcdef01234567", "a", some "x", 0⟩ : Doc).name ∧
     (applySet (some "b") none
        ⟨"0123456789abcdef01234567", "a", some "x", 0⟩).description =
       (⟨"0123456789abcdef01234567", "a", some "x", 0⟩ : Doc).description ∧
     (update_item ⟨some "b", some "c"⟩ "0123456789abcdef01234567"
        [⟨"0123456789abcdef01234567", "a", some "x", 0⟩]).2.all
       (fun e => e.description.isSome) = true) :=
  ⟨by decide, by decide,
   null_update_fields_ignored ⟨some "b", some "c"⟩ "0123456789abcdef01234567"
     [⟨"0123456789abcdef01234567", "a", some "x", 0⟩]
     ⟨"0123456789abcdef01234567", "a", some "x", 0⟩ (by decide) (by decide)⟩

end ItemsApi

namespace ItemsApi

theorem list_items_sorted_le (store : List Doc) :
    (list_items store).2.Pairwise
      (fun a b : ItemOut => b.created_at ≤ a.created_at) := by
  have hs : (List.insertionSort createdDesc store).Pairwise createdDesc :=
    List.sorted_insertionSort createdDesc store
  have ht : ((List.insertionSort createdDesc store).take 1000).Pairwise
      createdDesc :=
    List.Pairwise.sublist (List.take_sublist 1000 _) hs
  exact List.pairwise_map.mpr (ht.imp (fun h => h))

theorem take_1000_insertionSort_eq (l : List Doc) (hlen : l.length ≤ 1000) :
    (List.insertionSort createdDesc l).take 1000 =
      List.insertionSort createdDesc l :=
  List.take_of_length_le (by rw [List.length_insertionSort]; exact hlen)

theorem list_items_perm_of_small (l : List Doc) (hlen : l.length ≤ 1000) :
    (list_items l).2.Perm (l.map item_doc_to_out) := by
  show (((List.insertionSort createdDesc l).take 1000).map item_doc_to_out).Perm
    (l.map item_doc_to_out)
  rw [take_1000_insertionSort_eq l hlen]
  exact (List.perm_insertionSort createdDesc l).map item_doc_to_out

theorem list_items_sorted_lt (l : List Doc) (hlen : l.length ≤ 1000)
    (hdist : (l.map Doc.created_at).Nodup) :
    (list_items l).2.Pairwise
      (fun a b : ItemOut => b.created_at < a.created_at) := by
  have hperm : (List.insertionSort createdDesc l).Perm l :=
    List.perm_insertionSort createdDesc l
  have hnodup : ((List.insertionSort createdDesc l).map Doc.created_at).Nodup :=
    ((hperm.map Doc.created_at).nodup_iff).mpr hdist
  have hne : (List.insertionSort createdDesc l).Pairwise
      (fun a b : Doc => a.created_at ≠ b.created_at) :=
    List.pairwise_map.mp hnodup
  have hs : (List.insertionSort createdDesc l).Pairwise createdDesc :=
    List.sorted_insertionSort createdDesc l
  have hlt : (List.insertionSort createdDesc l).Pairwise
      (fun a b : Doc => b.created_at < a.created_at) :=
    (hs.and hne).imp (fun h => lt_of_le_of_ne h.1 (fun heq => h.2 heq.symm))
  show (((List.insertionSort createdDesc l).take 1000).map
    item_doc_to_out).Pairwise _
  rw [take_1000_insertionSort_eq l hlen]
  exact List.pairwise_map.mpr (hlt.imp (fun h => h))

/-- C6: `list_items` always answers 200 with at most 1000 results ordered by
`created_at` descending (strictly descending when the stored timestamps are
pairwise distinct); on the empty store it answers `(200, [])`, and when the
store fits in the 1000 cap the result is a permutation of the whole store. -/
theorem list_items_ordered_desc_capped (store l : List Doc)
    (hlen : l.length ≤ 1000) (hdist : (l.map Doc.created_at).Nodup) :
    (list_items store).1 = 200 ∧
    (list_items store).2.length ≤ 1000 ∧
    (list_items store).2.Pairwise
      (fun a b : ItemOut => b.created_at ≤ a.created_at) ∧
    list_items ([] : List Doc) = (200, []) ∧
    (list_items l).2.Perm (l.map item_doc_to_out) ∧
    (list_items l).2.Pairwise
      (fun a b : ItemOut => b.created_at < a.created_at) := by
  refine ⟨rfl, ?_, list_items_sorted_le store, rfl,
    list_items_perm_of_small l hlen, list_items_sorted_lt l hlen hdist⟩
  show (((List.insertionSort createdDesc store).take 1000).map
    item_doc_to_out).length ≤ 1000
  rw [List.length_map, List.length_take]
  exact min_le_left 1000 _

theorem list_items_ordered_desc_capped_witness :
    ([⟨"0123456789abcdef01234567", "a", none, 1⟩,
      ⟨"aaaaaaaaaaaaaaaaaaaaaaaa", "b", some "x", 2⟩] : List Doc).length
        ≤ 1000 ∧
    (([⟨"0123456789abcdef01234567", "a", none, 1⟩,
       ⟨"aaaaaaaaaaaaaaaaaaaaaaaa", "b", some "x", 2⟩] : List Doc).map
      Doc.created_at).Nodup ∧
    ((list_items [⟨"bbbbbbbbbbbbbbbbbbbbbbbb", "c", none, 3⟩]).1 = 200 ∧
     (list_items [⟨"bbbbbbbbbbbbbbbbbbbbbbbb", "c", none, 3⟩]).2.length
        ≤ 1000 ∧
     (list_items [⟨"bbbbbbbbbbbbbbbbbbbbbbbb", "c", none, 3⟩]).2.Pairwise
       (fun a b : ItemOut => b.created_at ≤ a.created_at) ∧
     list_items ([] : List Doc) = (200, []) ∧
     (list_items [⟨"0123456789abcdef01234567", "a", none, 1⟩,
        ⟨"aaaaaaaaaaaaaaaaaaaaaaaa", "b", some "x", 2⟩]).2.Perm
       (([⟨"0123456789abcdef01234567", "a", none, 1⟩,
          ⟨"aaaaaaaaaaaaaaaaaaaaaaaa", "b", some "x", 2⟩] : List Doc).map
         item_doc_to_out) ∧
     (list_items [⟨"0123456789abcdef01234567", "a", none, 1⟩,
        ⟨"aaaaaaaaaaaaaaaaaaaaaaaa", "b", some "x", 2⟩]).2.Pairwise
       (fun a b : ItemOut => b.created_at < a.created_at)) :=
  ⟨by decide, by decide,
   list_items_ordered_desc_capped [⟨"bbbbbbbbbbbbbbbbbbbbbbbb", "c", none, 3⟩]
     [⟨"0123456789abcdef01234567", "a", none, 1⟩,
      ⟨"aaaaaaaaaaaaaaaaaaaaaaaa", "b", some "x", 2⟩]
     (by decide) (by decide)⟩

end ItemsApi
